import Mathlib

/-!
# Loongson EDAC poll driver and Lenovo super-hotkey mute-LED driver

A shallow embedding of `drivers/edac/loongson_edac.c` and
`drivers/platform/x86/lenovo-super-hotkey-wmi.c`, and the properties of the two
drivers proved on it.

* C `int` values are integers kept inside the 32-bit signed range by `wrap32`;
  `u64` values are naturals reduced modulo `2^64`.
* Device memory is a function from the address of a 64-bit cell to its
  contents. It is an argument of every read, because the hardware changes it
  between polls.
* Calls into the kernel (EDAC core, WMI bus, LED class, allocator) are
  recorded as events of an explicit trace; the answers of the kernel and of the
  firmware come from a `Kernel` record that threads a world state.
-/

namespace CArith

/-! ## Machine integers -/

/-- Smallest value of a C `int`. -/
def INT_MIN : Int := -2147483648

/-- Largest value of a C `int`. -/
def INT_MAX : Int := 2147483647

/-- Reduction of an integer to the 32-bit signed (two-complement) range: the value a
C `int` holds after a conversion or an arithmetic operation that wraps. -/
def wrap32 (x : Int) : Int := (x + 2147483648) % 4294967296 - 2147483648

/-- Reduction of a natural number to an unsigned 64-bit value. -/
def wrap64 (x : Nat) : Nat := x % 18446744073709551616

/-- Conversion of a `u64` to `int` (keeps the low 32 bits, read as signed). -/
def u64_to_int (x : Nat) : Int := wrap32 (Int.ofNat x)

/-- Conversion of an `int` to `u64` (the usual arithmetic conversion applied to
the `int` operand of a mixed `int`/`u64` addition). -/
def int_to_u64 (x : Int) : Nat := (x % 18446744073709551616).toNat

/-- Subtraction of two `int` values; a result outside the range of `int` wraps
(the kernel is compiled with wrapping signed arithmetic). -/
def int_sub (a b : Int) : Int := wrap32 (a - b)

/-- The compound assignment `cs += f` with `cs` an `int` and `f` a `u64`: the sum
is formed in `u64` and stored back into the `int`. -/
def int_add_assign_u64 (cs : Int) (f : Nat) : Int :=
  u64_to_int (wrap64 (int_to_u64 cs + f))

end CArith

namespace LoongsonEdac

open CArith

/-! ## Data model of the EDAC poll driver -/

/-- Index `ECC_SET` of `enum ecc_index`. -/
def ECC_SET : Nat := 0
/-- Index `ECC_RESERVED` of `enum ecc_index`. -/
def ECC_RESERVED : Nat := 1
/-- Index `ECC_COUNT` of `enum ecc_index`. -/
def ECC_COUNT : Nat := 2
/-- Index `ECC_CS_COUNT` of `enum ecc_index`: the per-chip-select count register. -/
def ECC_CS_COUNT : Nat := 3
/-- Index `ECC_CODE` of `enum ecc_index`. -/
def ECC_CODE : Nat := 4
/-- Index `ECC_ADDR` of `enum ecc_index`. -/
def ECC_ADDR : Nat := 5
/-- Index `ECC_DATA0` of `enum ecc_index`. -/
def ECC_DATA0 : Nat := 6
/-- Index `ECC_DATA1` of `enum ecc_index`. -/
def ECC_DATA1 : Nat := 7
/-- Index `ECC_DATA2` of `enum ecc_index`. -/
def ECC_DATA2 : Nat := 8
/-- Index `ECC_DATA3` of `enum ecc_index`. -/
def ECC_DATA3 : Nat := 9

/-- Device memory: the contents of the 64-bit cell at each address. -/
abbrev Memory := Nat → Nat

/-- The read `base[i]` through a `u64 *`: the cell `8 * i` bytes after `base`. -/
def load_u64 (mem : Memory) (base : Nat) (i : Nat) : Nat := wrap64 (mem (base + 8 * i))

/-- The private data `struct loongson_edac_pvt`; `ecc_base = none` is the null
pointer. -/
structure loongson_edac_pvt where
  ecc_base : Option Nat
  last_ce_count : Int
  deriving DecidableEq

/-- The part of `struct mem_ctl_info` the poll path of the driver touches. -/
structure mem_ctl_info where
  mc_idx : Nat
  pvt_info : loongson_edac_pvt
  deriving DecidableEq

/-- Modelled from the spec: `enum hw_event_mc_err_type` of the EDAC core header,
which is not part of the sources; only the corrected-error kind is used
("reports the delta as a corrected-error event"). -/
inductive hw_event_mc_err_type where
  | HW_EVENT_ERR_CORRECTED
  | HW_EVENT_ERR_UNCORRECTED
  | HW_EVENT_ERR_DEFERRED
  | HW_EVENT_ERR_FATAL
  | HW_EVENT_ERR_INFO
  deriving DecidableEq

/-- What the driver hands to the EDAC core during a poll. -/
inductive Event where
  /-- The call `edac_mc_handle_error(type, mci, error_count, page_frame_number,
  offset_in_page, syndrome, top_layer, mid_layer, low_layer, msg, other_detail)`. -/
  | handle_error (type : hw_event_mc_err_type) (mc_idx : Nat) (error_count : Int)
      (page_frame_number offset_in_page syndrome : Nat)
      (top_layer mid_layer low_layer : Int) (msg other_detail : String)
  /-- The call `edac_mc_printk(mci, KERN_INFO, "add: %d", add)`. -/
  | printk (mc_idx : Nat) (fmt : String) (arg : Int)
  deriving DecidableEq

/-! ## The EDAC poll driver -/

/-- The function `read_ecc`. -/
def read_ecc (mem : Memory) (mci : mem_ctl_info) : Int :=
  let pvt := mci.pvt_info
  match pvt.ecc_base with
  | none => pvt.last_ce_count
  | some base =>
    let ecc := load_u64 mem base ECC_CS_COUNT
    let cs := u64_to_int (ecc &&& 0xff)
    let cs := int_add_assign_u64 cs ((ecc >>> 8) &&& 0xff)
    let cs := int_add_assign_u64 cs ((ecc >>> 16) &&& 0xff)
    let cs := int_add_assign_u64 cs ((ecc >>> 24) &&& 0xff)
    cs

/-- The function `edac_check`: the new controller state and the calls made. -/
def edac_check (mem : Memory) (mci : mem_ctl_info) : mem_ctl_info × List Event :=
  let pvt := mci.pvt_info
  let new := read_ecc mem mci
  let add := int_sub new pvt.last_ce_count
  let mci1 := { mci with pvt_info := { pvt with last_ce_count := new } }
  if add ≤ 0 then
    (mci1, [])
  else
    (mci1,
      [Event.handle_error hw_event_mc_err_type.HW_EVENT_ERR_CORRECTED mci1.mc_idx add
          0 0 0 0 0 (-1) "error" "",
       Event.printk mci1.mc_idx "add: %d" add])

/-- The function `pvt_init`. -/
def pvt_init (mem : Memory) (mci : mem_ctl_info) (vbase : Option Nat) : mem_ctl_info :=
  let mci1 := { mci with pvt_info := { mci.pvt_info with ecc_base := vbase } }
  { mci1 with pvt_info := { mci1.pvt_info with last_ce_count := read_ecc mem mci1 } }

/-! ## Observations on the EDAC poll driver -/

/-- The error counts of the corrected-error reports in a trace, in order. -/
def reports : List Event → List Int
  | [] => []
  | Event.handle_error hw_event_mc_err_type.HW_EVENT_ERR_CORRECTED _ n _ _ _ _ _ _ _ _ :: es =>
      n :: reports es
  | _ :: es => reports es

/-- The 8-bit field `v[8k+7 : 8k]` of a register value. -/
def field8 (v : Nat) (k : Nat) : Nat := (v / 2 ^ (8 * k)) % 256

/-- The decoded count of a register value: the sum of its four low byte fields. -/
def decoded (v : Nat) : Int :=
  Int.ofNat (field8 v 0 + field8 v 1 + field8 v 2 + field8 v 3)

/-- A run of polls, one per snapshot of the device memory: the final state and
everything emitted, in order. -/
def run_checks : List Memory → mem_ctl_info → mem_ctl_info × List Event
  | [], mci => (mci, [])
  | mem :: mems, mci =>
      let r := edac_check mem mci
      let rest := run_checks mems r.1
      (rest.1, r.2 ++ rest.2)

/-- The states the driver passes through: `pvt_init` during probe, then any
number of polls, each against whatever the device memory holds at that time. -/
inductive Reachable : mem_ctl_info → Prop where
  | init (mem : Memory) (mci : mem_ctl_info) (vbase : Option Nat) :
      Reachable (pvt_init mem mci vbase)
  | poll (mem : Memory) (mci : mem_ctl_info) :
      Reachable mci → Reachable (edac_check mem mci).1

/-- The register image with the given four byte-wide sub-counts in `cs0 .. cs3`. -/
def pack4 (c0 c1 c2 c3 : Nat) : Nat := c0 + 256 * c1 + 65536 * c2 + 16777216 * c3

/-- The sum of the positive increments of a sequence of readings that follows a
previous count `p`: `max (r1 - p) 0 + max (r2 - r1) 0 + ...`. -/
def positive_increments : Int → List Int → Int
  | _, [] => 0
  | p, r :: rs => max (r - p) 0 + positive_increments r rs

/-- The readings `r1, r2, ...` never decrease, starting from `p`. -/
def nondecreasing_from : Int → List Int → Prop
  | _, [] => True
  | p, r :: rs => p ≤ r ∧ nondecreasing_from r rs

/-- Whether a sequence of readings never decreases can be computed. -/
instance nondecreasing_from_decidable : ∀ (p : Int) (rs : List Int),
    Decidable (nondecreasing_from p rs)
  | _, [] => isTrue trivial
  | p, r :: rs =>
    have : Decidable (nondecreasing_from r rs) := nondecreasing_from_decidable r rs
    (inferInstance : Decidable (p ≤ r ∧ nondecreasing_from r rs))

/-- The last reading of a sequence, or the previous count when there is none. -/
def last_reading : Int → List Int → Int
  | p, [] => p
  | _, r :: rs => last_reading r rs

/-- The readings decoded from the count register in a sequence of snapshots. -/
def readings (base : Nat) (mems : List Memory) : List Int :=
  mems.map (fun mem => decoded (load_u64 mem base ECC_CS_COUNT))

/-- A controller state given by its three components. -/
def mk_mci (mc_idx : Nat) (ecc_base : Option Nat) (last_ce_count : Int) : mem_ctl_info :=
  { mc_idx := mc_idx, pvt_info := { ecc_base := ecc_base, last_ce_count := last_ce_count } }

/-- A device memory whose every cell holds `v`. -/
def const_mem (v : Nat) : Memory := fun _ => v

end LoongsonEdac

namespace LenovoSuperHotkey

open CArith

/-! ## Data model of the mute-LED driver -/

/-- Method id `WMI_LUD_GET_SUPPORT`. -/
def WMI_LUD_GET_SUPPORT : Nat := 1
/-- Method id `WMI_LUD_SET_FEATURE`. -/
def WMI_LUD_SET_FEATURE : Nat := 2

/-- Selector `WMI_LUD_GET_MICMUTE_LED_VER`. -/
def WMI_LUD_GET_MICMUTE_LED_VER : Nat := 20
/-- Selector `WMI_LUD_GET_AUDIOMUTE_LED_VER`. -/
def WMI_LUD_GET_AUDIOMUTE_LED_VER : Nat := 26

/-- Expected version `WMI_LUD_SUPPORT_MICMUTE_LED_VER`. -/
def WMI_LUD_SUPPORT_MICMUTE_LED_VER : Int := 25
/-- Expected version `WMI_LUD_SUPPORT_AUDIOMUTE_LED_VER`. -/
def WMI_LUD_SUPPORT_AUDIOMUTE_LED_VER : Int := 27

/-- The record `struct wmi_led_args` (`u8 id; u8 subid; u16 value`). -/
structure wmi_led_args where
  id : Nat
  subid : Nat
  value : Nat
  deriving DecidableEq

/-- The size `sizeof(struct wmi_led_args)`: two `u8` and one `u16`, no padding. -/
def sizeof_wmi_led_args : Nat := 1 + 1 + 2

/-- The size `sizeof(unsigned int)` on x86. -/
def sizeof_unsigned_int : Nat := 4

/-- Opcode `MIC_MUTE_LED_ON` of `enum hotkey_set_feature`. -/
def MIC_MUTE_LED_ON : Nat := 1
/-- Opcode `MIC_MUTE_LED_OFF` of `enum hotkey_set_feature`. -/
def MIC_MUTE_LED_OFF : Nat := 2
/-- Opcode `AUDIO_MUTE_LED_ON` of `enum hotkey_set_feature`. -/
def AUDIO_MUTE_LED_ON : Nat := 4
/-- Opcode `AUDIO_MUTE_LED_OFF` of `enum hotkey_set_feature`. -/
def AUDIO_MUTE_LED_OFF : Nat := 5

/-- Array bound `LSH_ACPI_LED_MAX`. -/
def LSH_ACPI_LED_MAX : Nat := 2

/-- Event type `LSH_WMI_EVENT_LUD_KEYS`. -/
def LSH_WMI_EVENT_LUD_KEYS : Nat := 2

/-- Value `MIC_MUTE` of `enum mute_led_type`. -/
def MIC_MUTE : Nat := 0
/-- Value `AUDIO_MUTE` of `enum mute_led_type`. -/
def AUDIO_MUTE : Nat := 1

/-- Modelled from the spec: the errno constant `EIO` ("I/O error"), defined in a
kernel header outside the sources; the Linux value is 5. -/
def EIO : Int := 5
/-- Modelled from the spec: the errno constant `EINVAL`, defined in a kernel header
outside the sources; the Linux value is 22. -/
def EINVAL : Int := 22
/-- Modelled from the spec: the errno constant `ENOMEM` ("memory allocation
failure"), defined in a kernel header outside the sources; the Linux value is 12. -/
def ENOMEM : Int := 12

/-- Modelled from the spec: brightness `LED_OFF` of `enum led_brightness` ("a
brightness state (on/off)"), declared in `linux/leds.h` outside the sources. -/
def LED_OFF : Nat := 0
/-- Modelled from the spec: brightness `LED_ON` of `enum led_brightness` ("a
brightness state (on/off)"), declared in `linux/leds.h` outside the sources. -/
def LED_ON : Nat := 1

/-- Modelled from the spec: the flag `LED_CORE_SUSPENDRESUME` of `linux/leds.h`,
outside the sources; bit 16. -/
def LED_CORE_SUSPENDRESUME : Nat := 65536

/-- Modelled from the spec: the type tag `ACPI_TYPE_INTEGER` ("the expected scalar
integer type") of the ACPI headers, outside the sources; the value is 1. -/
def ACPI_TYPE_INTEGER : Nat := 1

/-- Modelled from the spec: the macro `ACPI_FAILURE` of the ACPI headers, outside
the sources ("the firmware call itself fails"): a status other than `AE_OK = 0`. -/
def ACPI_FAILURE (status : Nat) : Bool := status != 0

/-- Modelled from the spec: `union acpi_object` of the ACPI headers, outside the
sources: the type tag and the value of the integer member (the output of the
method is a "32-bit integer version"; the conversion to `int` is modelled all the
same). -/
structure acpi_object where
  type : Nat
  integer_value : Nat
  deriving DecidableEq

/-- The two callbacks the field `brightness_set_blocking` of a descriptor can point to. -/
inductive led_setter where
  | lsh_wmi_micmute_led_set
  | lsh_wmi_audiomute_led_set
  deriving DecidableEq

/-- The fields of `struct led_classdev` the driver writes; a null pointer is
`none`. -/
structure led_classdev where
  name : Option String
  max_brightness : Nat
  flags : Nat
  dev : Option Nat
  brightness_set_blocking : Option led_setter
  default_trigger : Option String
  deriving DecidableEq

/-- A descriptor as `devm_kzalloc` leaves it: all zero. -/
def led_classdev_zero : led_classdev :=
  { name := none, max_brightness := 0, flags := 0, dev := none,
    brightness_set_blocking := none, default_trigger := none }

/-- The data `struct lenovo_super_hotkey_wmi_private`; `cdev i` is `cdev[i]`. -/
structure lenovo_super_hotkey_wmi_private where
  event : Nat
  cdev : Nat → led_classdev
  led_wdev : Option Nat

/-- What an input `struct acpi_buffer` points to. -/
inductive wmi_payload where
  /-- The `unsigned int wmiarg` of the get-support call. -/
  | selector (wmiarg : Nat)
  /-- The `struct wmi_led_args led_arg` of the set-feature call. -/
  | led_args (a : wmi_led_args)
  deriving DecidableEq

/-- An input `struct acpi_buffer`: its `length` and what `pointer` points to. -/
structure acpi_buffer where
  length : Nat
  pointer : wmi_payload
  deriving DecidableEq

/-- What `wmidev_evaluate_method` hands back: the status, and in the output
buffer the address and contents of the object it allocated (`none`: null). -/
structure wmi_reply where
  status : Nat
  pointer : Option (Nat × acpi_object)
  deriving DecidableEq

/-- The calls the driver makes into the kernel, in order. -/
inductive Event where
  /-- The call `wmidev_evaluate_method(wdev, instance, method_id, in, out)`; the
  flag says whether `out` is a buffer (not null). -/
  | wmi_evaluate (wdev : Option Nat) (inst : Nat) (method_id : Nat) (input : acpi_buffer)
      (has_output : Bool)
  /-- The call `kfree(ptr)`. -/
  | kfree (ptr : Option Nat)
  /-- The call `devm_led_classdev_register(dev, &wpriv->cdev[led_type])`. -/
  | led_register (dev : Nat) (led_type : Nat) (cdev : led_classdev)
  /-- The call `dev_err(dev, fmt, ...)` with its integer arguments. -/
  | dev_err (dev : Nat) (fmt : String) (args : List Int)
  deriving DecidableEq

/-- The kernel and the firmware, seen from the driver: each call advances a
world state `σ` and yields its result. -/
structure Kernel (σ : Type) where
  /-- The call `wmidev_evaluate_method(wdev, instance, method_id, in, out)`. -/
  wmidev_evaluate_method : σ → Option Nat → Nat → Nat → acpi_buffer → Bool → σ × wmi_reply
  /-- The call `devm_led_classdev_register(dev, cdev)`: the error code and the
  descriptor as the LED core leaves it. -/
  devm_led_classdev_register : σ → Nat → led_classdev → σ × Int × led_classdev
  /-- The call `devm_kzalloc`: whether the allocation succeeded. -/
  devm_kzalloc : σ → σ × Bool

/-- The driver data bound to the device, the world, and the calls made so far. -/
structure State (σ : Type) where
  wpriv : lenovo_super_hotkey_wmi_private
  world : σ
  trace : List Event

/-- The assignment `wpriv->cdev[i] = c`. -/
def set_cdev (wpriv : lenovo_super_hotkey_wmi_private) (i : Nat) (c : led_classdev) :
    lenovo_super_hotkey_wmi_private :=
  { wpriv with cdev := fun j => if j = i then c else wpriv.cdev j }

/-- Appends one call to the trace. -/
def emit {σ : Type} (s : State σ) (e : Event) : State σ :=
  { s with trace := s.trace ++ [e] }

/-! ## The mute-LED driver -/

/-- The function `lsh_wmi_mute_led_set`; the descriptor argument only serves to
find the driver data, which the state holds. -/
def lsh_wmi_mute_led_set {σ : Type} (k : Kernel σ) (led_type : Nat) (brightness : Nat)
    (s : State σ) : Int × State σ :=
  let wpriv := s.wpriv
  let led_arg : wmi_led_args := { id := 0, subid := 0, value := 0 }
  let sw : Option wmi_led_args :=
    if led_type = MIC_MUTE then
      some { led_arg with
        id := if brightness = LED_ON then MIC_MUTE_LED_ON else MIC_MUTE_LED_OFF }
    else if led_type = AUDIO_MUTE then
      some { led_arg with
        id := if brightness = LED_ON then AUDIO_MUTE_LED_ON else AUDIO_MUTE_LED_OFF }
    else none
  match sw with
  | none => (- EINVAL, s)
  | some led_arg =>
    let input : acpi_buffer :=
      { length := sizeof_wmi_led_args, pointer := wmi_payload.led_args led_arg }
    let r := k.wmidev_evaluate_method s.world wpriv.led_wdev 0 WMI_LUD_SET_FEATURE input false
    let s1 := emit { s with world := r.1 }
      (Event.wmi_evaluate wpriv.led_wdev 0 WMI_LUD_SET_FEATURE input false)
    if ACPI_FAILURE r.2.status then (- EIO, s1) else (0, s1)

/-- The function `lsh_wmi_audiomute_led_set`. -/
def lsh_wmi_audiomute_led_set {σ : Type} (k : Kernel σ) (brightness : Nat) (s : State σ) :
    Int × State σ :=
  lsh_wmi_mute_led_set k AUDIO_MUTE brightness s

/-- The function `lsh_wmi_micmute_led_set`. -/
def lsh_wmi_micmute_led_set {σ : Type} (k : Kernel σ) (brightness : Nat) (s : State σ) :
    Int × State σ :=
  lsh_wmi_mute_led_set k MIC_MUTE brightness s

/-- The label `led_error` of `lenovo_super_hotkey_wmi_led_init`: `kfree(obj)`, then
`return err`. -/
def led_error {σ : Type} (obj : Option (Nat × acpi_object)) (err : Int) (s : State σ) :
    Int × State σ :=
  (err, emit s (Event.kfree (obj.map Prod.fst)))

/-- The label `led_reg_failed` of `lenovo_super_hotkey_wmi_led_init`: the message,
then on into `led_error`. -/
def led_reg_failed {σ : Type} (dev : Nat) (led_type : Nat) (obj : Option (Nat × acpi_object))
    (err : Int) (s : State σ) : Int × State σ :=
  led_error obj err
    (emit s (Event.dev_err dev "Could not register mute LED %d : %d\n" [Int.ofNat led_type, err]))

/-- The get-support call of `lenovo_super_hotkey_wmi_led_init` for the selector
`wmiarg`: the input buffer it passes. -/
def get_support_input (wmiarg : Nat) : acpi_buffer :=
  { length := sizeof_unsigned_int, pointer := wmi_payload.selector wmiarg }

/-- The registration step shared by the two cases of the second `switch` of
`lenovo_super_hotkey_wmi_led_init`: the three assignments, the call to
`devm_led_classdev_register`, and the branch on its result. -/
def register_led {σ : Type} (k : Kernel σ) (led_type : Nat) (dev : Nat)
    (obj : Option (Nat × acpi_object)) (name : String) (setter : led_setter) (trigger : String)
    (s : State σ) : Int × State σ :=
  let c := { s.wpriv.cdev led_type with
    name := some name, brightness_set_blocking := some setter, default_trigger := some trigger }
  let r := k.devm_led_classdev_register s.world dev c
  let err := r.2.1
  let s1 := emit { s with wpriv := set_cdev s.wpriv led_type r.2.2, world := r.1 }
    (Event.led_register dev led_type c)
  if err < 0 then led_reg_failed dev led_type obj err s1 else (0, s1)

/-- The function `lenovo_super_hotkey_wmi_led_init`. -/
def lenovo_super_hotkey_wmi_led_init {σ : Type} (k : Kernel σ) (led_type : Nat) (dev : Nat)
    (s : State σ) : Int × State σ :=
  let wpriv := s.wpriv
  let sw : Option Nat :=
    if led_type = MIC_MUTE then some WMI_LUD_GET_MICMUTE_LED_VER
    else if led_type = AUDIO_MUTE then some WMI_LUD_GET_AUDIOMUTE_LED_VER
    else none
  match sw with
  | none => (- EINVAL, s)
  | some wmiarg =>
    let input := get_support_input wmiarg
    let r := k.wmidev_evaluate_method s.world wpriv.led_wdev 0 WMI_LUD_GET_SUPPORT input true
    let s1 := emit { s with world := r.1 }
      (Event.wmi_evaluate wpriv.led_wdev 0 WMI_LUD_GET_SUPPORT input true)
    if ACPI_FAILURE r.2.status then (- EIO, s1)
    else
      let obj := r.2.pointer
      match obj with
      | none => led_error obj (- EIO) s1
      | some (addr, o) =>
        if o.type = ACPI_TYPE_INTEGER then
          let led_version := u64_to_int (wrap64 o.integer_value)
          let s2 := emit s1 (Event.kfree (some addr))
          let c := { s2.wpriv.cdev led_type with
            max_brightness := LED_ON, dev := some dev, flags := LED_CORE_SUSPENDRESUME }
          let s3 := { s2 with wpriv := set_cdev s2.wpriv led_type c }
          if led_type = MIC_MUTE then
            if led_version ≠ WMI_LUD_SUPPORT_MICMUTE_LED_VER then led_error obj (- EIO) s3
            else
              register_led k led_type dev obj "platform::micmute"
                led_setter.lsh_wmi_micmute_led_set "audio-micmute" s3
          else if led_type = AUDIO_MUTE then
            if led_version ≠ WMI_LUD_SUPPORT_AUDIOMUTE_LED_VER then led_error obj (- EIO) s3
            else
              register_led k led_type dev obj "platform::mute"
                led_setter.lsh_wmi_audiomute_led_set "audio-mute" s3
          else
            led_error obj (- EINVAL)
              (emit s3 (Event.dev_err dev "Unknown LED type %d\n" [Int.ofNat led_type]))
        else led_error obj (- EIO) s1

/-- The function `lenovo_super_hotkey_wmi_leds_setup`. -/
def lenovo_super_hotkey_wmi_leds_setup {σ : Type} (k : Kernel σ) (dev : Nat) (s : State σ) :
    State σ :=
  let s1 := (lenovo_super_hotkey_wmi_led_init k MIC_MUTE dev s).2
  (lenovo_super_hotkey_wmi_led_init k AUDIO_MUTE dev s1).2

/-- The function `lenovo_super_hotkey_wmi_probe`; the device `&wdev->dev` is
identified with `wdev`. When the allocation fails no driver data exists. -/
def lenovo_super_hotkey_wmi_probe {σ : Type} (k : Kernel σ) (wdev : Nat)
    (context : lenovo_super_hotkey_wmi_private) (world : σ) (trace : List Event) :
    Int × Option (State σ) :=
  let a := k.devm_kzalloc world
  if a.2 = false then (- ENOMEM, none)
  else
    let wpriv := context
    let s : State σ := { wpriv := wpriv, world := a.1, trace := trace }
    if wpriv.event = LSH_WMI_EVENT_LUD_KEYS then
      let s1 := { s with wpriv := { wpriv with led_wdev := some wdev } }
      (0, some (lenovo_super_hotkey_wmi_leds_setup k wdev s1))
    else (0, some s)

/-- The context `lsk_wmi_context_lud_keys`. -/
def lsk_wmi_context_lud_keys : lenovo_super_hotkey_wmi_private :=
  { event := LSH_WMI_EVENT_LUD_KEYS, cdev := fun _ => led_classdev_zero, led_wdev := none }

/-! ## Observations on the mute-LED driver -/

/-- How many times a trace releases the object at address `a`. -/
def frees (a : Nat) : List Event → Nat
  | [] => 0
  | Event.kfree ptr :: es => (if ptr = some a then 1 else 0) + frees a es
  | _ :: es => frees a es

/-- How many LED registrations a trace attempts. -/
def registrations : List Event → Nat
  | [] => 0
  | Event.led_register _ _ _ :: es => 1 + registrations es
  | _ :: es => registrations es

/-- The firmware method calls of a trace: method id and input buffer of each. -/
def evaluations : List Event → List (Nat × acpi_buffer)
  | [] => []
  | Event.wmi_evaluate _ _ m input _ :: es => (m, input) :: evaluations es
  | _ :: es => evaluations es

/-- The selector that queries the version of an LED type. -/
def version_selector (led_type : Nat) : Nat :=
  if led_type = MIC_MUTE then 20 else 26

/-- The version constant expected for an LED type. -/
def expected_version (led_type : Nat) : Nat :=
  if led_type = MIC_MUTE then 25 else 27

/-- The result of the get-support call that `lenovo_super_hotkey_wmi_led_init`
makes in state `s`: the world after it, and the reply. -/
def get_support_reply {σ : Type} (k : Kernel σ) (led_type : Nat) (s : State σ) : σ × wmi_reply :=
  k.wmidev_evaluate_method s.world s.wpriv.led_wdev 0 WMI_LUD_GET_SUPPORT
    (get_support_input (version_selector led_type)) true

/-- The descriptor of an LED type as it is handed to the LED core. -/
def prepared_cdev (led_type dev : Nat) (c : led_classdev) : led_classdev :=
  { c with
    max_brightness := LED_ON
    dev := some dev
    flags := LED_CORE_SUSPENDRESUME
    name := some (if led_type = MIC_MUTE then "platform::micmute" else "platform::mute")
    brightness_set_blocking := some (if led_type = MIC_MUTE then
      led_setter.lsh_wmi_micmute_led_set else led_setter.lsh_wmi_audiomute_led_set)
    default_trigger := some (if led_type = MIC_MUTE then "audio-micmute" else "audio-mute") }

/-- A kernel without state: every firmware call returns the given status and
output, every registration the given code, and allocation the given outcome. -/
def fixed_kernel (status : Nat) (output : Option (Nat × acpi_object)) (reg : Int)
    (alloc : Bool) : Kernel Unit :=
  { wmidev_evaluate_method := fun w _ _ _ _ _ => (w, { status := status, pointer := output })
    devm_led_classdev_register := fun w _ c => (w, reg, c)
    devm_kzalloc := fun w => (w, alloc) }

/-- The driver state right after probe bound the WMI device 7, before any LED
is set up. -/
def bound_state : State Unit :=
  { wpriv := { lsk_wmi_context_lud_keys with led_wdev := some 7 }, world := (), trace := [] }

/-- An ACPI integer object holding `v`. -/
def integer_object (v : Nat) : acpi_object := { type := ACPI_TYPE_INTEGER, integer_value := v }

/-- The state right after the get-support call of
`lenovo_super_hotkey_wmi_led_init`. -/
def after_call {σ : Type} (k : Kernel σ) (led_type : Nat) (s : State σ) : State σ :=
  emit { s with world := (get_support_reply k led_type s).1 }
    (Event.wmi_evaluate s.wpriv.led_wdev 0 WMI_LUD_GET_SUPPORT
      (get_support_input (version_selector led_type)) true)

/-- The state in which `lenovo_super_hotkey_wmi_led_init` compares the version:
the output object at `addr` released, the first three fields written. -/
def after_read {σ : Type} (k : Kernel σ) (led_type dev addr : Nat) (s : State σ) : State σ :=
  let s2 := emit (after_call k led_type s) (Event.kfree (some addr))
  let c := { s2.wpriv.cdev led_type with
    max_brightness := LED_ON, dev := some dev, flags := LED_CORE_SUSPENDRESUME }
  { s2 with wpriv := set_cdev s2.wpriv led_type c }

/-- The result of the registration call of `lenovo_super_hotkey_wmi_led_init`. -/
def registration {σ : Type} (k : Kernel σ) (led_type dev : Nat) (s : State σ) :
    σ × Int × led_classdev :=
  k.devm_led_classdev_register (get_support_reply k led_type s).1 dev
    (prepared_cdev led_type dev (s.wpriv.cdev led_type))

/-- The state right after the registration call of
`lenovo_super_hotkey_wmi_led_init`. -/
def after_register {σ : Type} (k : Kernel σ) (led_type dev addr : Nat) (s : State σ) : State σ :=
  let s3 := after_read k led_type dev addr s
  emit { s3 with wpriv := set_cdev s3.wpriv led_type (registration k led_type dev s).2.2,
                 world := (registration k led_type dev s).1 }
    (Event.led_register dev led_type (prepared_cdev led_type dev (s.wpriv.cdev led_type)))

end LenovoSuperHotkey

namespace LoongsonEdac

open CArith

/-! ## Arithmetic of the decode, and the invariant of the stored count -/

theorem and_ff (x : Nat) : x &&& 0xff = x % 256 := by
  have h := Nat.and_pow_two_sub_one_eq_mod x 8
  simpa using h

theorem u64_to_int_small (x : Nat) (h : x ≤ 1020) : u64_to_int x = Int.ofNat x := by
  unfold u64_to_int wrap32
  have : (Int.ofNat x) = (x : Int) := rfl
  rw [this]
  omega

theorem int_add_assign_u64_small (cs : Int) (f : Nat) (h0 : 0 ≤ cs) (h1 : cs ≤ 765)
    (hf : f ≤ 255) : int_add_assign_u64 cs f = cs + Int.ofNat f := by
  obtain ⟨n, rfl⟩ := Int.eq_ofNat_of_zero_le h0
  have hn : n ≤ 765 := by omega
  have e1 : int_to_u64 (n : Int) = n := by
    unfold int_to_u64
    omega
  have e2 : wrap64 (n + f) = n + f := by
    unfold wrap64
    omega
  unfold int_add_assign_u64
  rw [e1, e2, u64_to_int_small _ (by omega)]
  rfl

theorem field8_le (v k : Nat) : field8 v k ≤ 255 := by
  unfold field8
  omega

theorem read_ecc_bound (mem : Memory) (mci : mem_ctl_info) (base : Nat)
    (hb : mci.pvt_info.ecc_base = some base) :
    read_ecc mem mci = decoded (load_u64 mem base ECC_CS_COUNT) := by
  unfold read_ecc
  simp only [hb, and_ff, Nat.shiftRight_eq_div_pow]
  generalize load_u64 mem base ECC_CS_COUNT = v
  have f0 : v % 256 = field8 v 0 := by simp [field8]
  have f1 : v / 2 ^ 8 % 256 = field8 v 1 := rfl
  have f2 : v / 2 ^ 16 % 256 = field8 v 2 := rfl
  have f3 : v / 2 ^ 24 % 256 = field8 v 3 := rfl
  rw [f0, f1, f2, f3]
  unfold decoded
  have b0 := field8_le v 0
  have b1 := field8_le v 1
  have b2 := field8_le v 2
  have b3 := field8_le v 3
  generalize field8 v 0 = a0 at *
  generalize field8 v 1 = a1 at *
  generalize field8 v 2 = a2 at *
  generalize field8 v 3 = a3 at *
  rw [u64_to_int_small a0 (by omega)]
  rw [int_add_assign_u64_small _ a1 (by simp) (by simp; omega) b1]
  rw [int_add_assign_u64_small _ a2 (by simp; omega) (by simp; omega) b2]
  rw [int_add_assign_u64_small _ a3 (by simp; omega) (by simp; omega) b3]
  simp

theorem decoded_nonneg (v : Nat) : 0 ≤ decoded v := by
  unfold decoded
  exact Int.ofNat_nonneg _

theorem decoded_le (v : Nat) : decoded v ≤ 1020 := by
  unfold decoded
  have b0 := field8_le v 0
  have b1 := field8_le v 1
  have b2 := field8_le v 2
  have b3 := field8_le v 3
  have : field8 v 0 + field8 v 1 + field8 v 2 + field8 v 3 ≤ 1020 := by omega
  exact Int.ofNat_le.mpr this

theorem field8_mod (v k : Nat) (hk : k < 4) : field8 (v % 4294967296) k = field8 v k := by
  unfold field8
  have hk4 : k = 0 ∨ k = 1 ∨ k = 2 ∨ k = 3 := by omega
  rcases hk4 with rfl | rfl | rfl | rfl <;> norm_num <;> omega

theorem decoded_mod (v : Nat) : decoded (v % 4294967296) = decoded v := by
  unfold decoded
  rw [field8_mod v 0 (by omega), field8_mod v 1 (by omega), field8_mod v 2 (by omega),
    field8_mod v 3 (by omega)]

theorem wrap32_small (x : Int) (h0 : -2147483648 ≤ x) (h1 : x ≤ 2147483647) :
    wrap32 x = x := by
  unfold wrap32
  omega

theorem pvt_init_base (mem : Memory) (mci : mem_ctl_info) (vbase : Option Nat) :
    (pvt_init mem mci vbase).pvt_info.ecc_base = vbase := rfl

theorem pvt_init_count (mem : Memory) (mci : mem_ctl_info) (vbase : Option Nat) :
    (pvt_init mem mci vbase).pvt_info.last_ce_count =
      read_ecc mem { mci with pvt_info := { mci.pvt_info with ecc_base := vbase } } := rfl

theorem edac_check_state (mem : Memory) (mci : mem_ctl_info) :
    (edac_check mem mci).1 =
      { mci with pvt_info := { mci.pvt_info with last_ce_count := read_ecc mem mci } } := by
  unfold edac_check
  simp only
  split <;> rfl

theorem reachable_count_range (mci : mem_ctl_info) (hr : Reachable mci) (base : Nat)
    (hb : mci.pvt_info.ecc_base = some base) :
    0 ≤ mci.pvt_info.last_ce_count ∧ mci.pvt_info.last_ce_count ≤ 1020 := by
  induction hr with
  | init mem mci0 vbase =>
    have hv : vbase = some base := by
      rw [← pvt_init_base mem mci0 vbase]
      exact hb
    subst hv
    rw [pvt_init_count, read_ecc_bound mem _ base rfl]
    exact ⟨decoded_nonneg _, decoded_le _⟩
  | poll mem mci0 _ _ =>
    rw [edac_check_state] at hb ⊢
    have hb0 : mci0.pvt_info.ecc_base = some base := hb
    simp only
    rw [read_ecc_bound mem mci0 base hb0]
    exact ⟨decoded_nonneg _, decoded_le _⟩

theorem edac_check_events (mem : Memory) (mci : mem_ctl_info)
    (h0 : -2147483648 ≤ read_ecc mem mci - mci.pvt_info.last_ce_count)
    (h1 : read_ecc mem mci - mci.pvt_info.last_ce_count ≤ 2147483647) :
    (edac_check mem mci).2 =
      if read_ecc mem mci ≤ mci.pvt_info.last_ce_count then []
      else
        [Event.handle_error hw_event_mc_err_type.HW_EVENT_ERR_CORRECTED mci.mc_idx
            (read_ecc mem mci - mci.pvt_info.last_ce_count) 0 0 0 0 0 (-1) "error" "",
         Event.printk mci.mc_idx "add: %d" (read_ecc mem mci - mci.pvt_info.last_ce_count)] := by
  unfold edac_check
  simp only [int_sub]
  rw [wrap32_small _ h0 h1]
  by_cases h : read_ecc mem mci ≤ mci.pvt_info.last_ce_count
  · have h2 : read_ecc mem mci - mci.pvt_info.last_ce_count ≤ 0 := by omega
    rw [if_pos h2, if_pos h]
  · have h2 : ¬ read_ecc mem mci - mci.pvt_info.last_ce_count ≤ 0 := by omega
    rw [if_neg h2, if_neg h]

theorem reports_check (mem : Memory) (mci : mem_ctl_info)
    (h0 : -2147483648 ≤ read_ecc mem mci - mci.pvt_info.last_ce_count)
    (h1 : read_ecc mem mci - mci.pvt_info.last_ce_count ≤ 2147483647) :
    reports (edac_check mem mci).2 =
      if read_ecc mem mci > mci.pvt_info.last_ce_count then
        [read_ecc mem mci - mci.pvt_info.last_ce_count]
      else [] := by
  rw [edac_check_events mem mci h0 h1]
  by_cases h : read_ecc mem mci ≤ mci.pvt_info.last_ce_count
  · have h2 : ¬ read_ecc mem mci > mci.pvt_info.last_ce_count := by omega
    rw [if_pos h, if_neg h2]
    rfl
  · have h2 : read_ecc mem mci > mci.pvt_info.last_ce_count := by omega
    rw [if_neg h, if_pos h2]
    rfl

theorem reports_append (a b : List Event) : reports (a ++ b) = reports a ++ reports b := by
  induction a with
  | nil => rfl
  | cons e es ih =>
    cases e with
    | handle_error t i n a1 a2 a3 a4 a5 a6 m o =>
      cases t <;> simp [reports, ih]
    | printk i f x => simp [reports, ih]

theorem run_checks_reachable (mems : List Memory) (mci : mem_ctl_info) (hr : Reachable mci) :
    Reachable (run_checks mems mci).1 := by
  induction mems generalizing mci with
  | nil => exact hr
  | cons mem mems ih => exact ih _ (Reachable.poll mem mci hr)

theorem increments_monotone (p : Int) (rs : List Int) (h : nondecreasing_from p rs) :
    positive_increments p rs = last_reading p rs - p := by
  induction rs generalizing p with
  | nil => simp [positive_increments, last_reading]
  | cons r rs ih =>
    obtain ⟨h1, h2⟩ := h
    simp only [positive_increments, last_reading]
    rw [ih r h2, max_eq_left (by omega)]
    omega

theorem run_checks_sum (mems : List Memory) (mci : mem_ctl_info) (base : Nat)
    (hr : Reachable mci) (hb : mci.pvt_info.ecc_base = some base) :
    (reports (run_checks mems mci).2).sum =
      positive_increments mci.pvt_info.last_ce_count (readings base mems) := by
  induction mems generalizing mci with
  | nil => rfl
  | cons mem mems ih =>
    have hrange := reachable_count_range mci hr base hb
    have hn := read_ecc_bound mem mci base hb
    have hn0 := decoded_nonneg (load_u64 mem base ECC_CS_COUNT)
    have hn1 := decoded_le (load_u64 mem base ECC_CS_COUNT)
    have hb1 : (edac_check mem mci).1.pvt_info.ecc_base = some base := by
      rw [edac_check_state]
      exact hb
    have hl1 : (edac_check mem mci).1.pvt_info.last_ce_count =
        decoded (load_u64 mem base ECC_CS_COUNT) := by
      rw [edac_check_state, ← hn]
    have hstep := reports_check mem mci (by rw [hn]; omega) (by rw [hn]; omega)
    have htail := ih (edac_check mem mci).1 (Reachable.poll mem mci hr) hb1
    simp only [run_checks, reports_append, List.sum_append, readings, List.map_cons,
      positive_increments]
    rw [hstep]
    simp only [readings] at htail
    rw [htail, hl1, hn]
    by_cases h : decoded (load_u64 mem base ECC_CS_COUNT) > mci.pvt_info.last_ce_count
    · rw [if_pos h, max_eq_left (by omega)]
      simp
    · rw [if_neg h, max_eq_right (by omega)]
      simp

/-! ## Claims about the EDAC poll driver -/

/-- C1: in every state the driver reaches with a register region bound, whose
stored previous count is `p`, one call of `edac_check` against a count register
that decodes to `n` emits a corrected-error report if and only if `n > p`; it
then emits exactly one, and its error count is `n - p`. The calls it makes are
then that report and the log line, and none at all otherwise. -/
theorem edac_check_reports_delta (mem : Memory) (mci : mem_ctl_info) (base : Nat)
    (hr : Reachable mci) (hb : mci.pvt_info.ecc_base = some base) :
    read_ecc mem mci = decoded (load_u64 mem base ECC_CS_COUNT) ∧
    reports (edac_check mem mci).2 =
      (if decoded (load_u64 mem base ECC_CS_COUNT) > mci.pvt_info.last_ce_count then
        [decoded (load_u64 mem base ECC_CS_COUNT) - mci.pvt_info.last_ce_count]
      else []) ∧
    (edac_check mem mci).2 =
      (if decoded (load_u64 mem base ECC_CS_COUNT) > mci.pvt_info.last_ce_count then
        [Event.handle_error hw_event_mc_err_type.HW_EVENT_ERR_CORRECTED mci.mc_idx
            (decoded (load_u64 mem base ECC_CS_COUNT) - mci.pvt_info.last_ce_count)
            0 0 0 0 0 (-1) "error" "",
         Event.printk mci.mc_idx "add: %d"
            (decoded (load_u64 mem base ECC_CS_COUNT) - mci.pvt_info.last_ce_count)]
      else []) := by
  have hrange := reachable_count_range mci hr base hb
  have hn := read_ecc_bound mem mci base hb
  have hn0 := decoded_nonneg (load_u64 mem base ECC_CS_COUNT)
  have hn1 := decoded_le (load_u64 mem base ECC_CS_COUNT)
  refine ⟨hn, ?_, ?_⟩
  · rw [reports_check mem mci (by rw [hn]; omega) (by rw [hn]; omega), hn]
  · rw [edac_check_events mem mci (by rw [hn]; omega) (by rw [hn]; omega), hn]
    by_cases h : decoded (load_u64 mem base ECC_CS_COUNT) > mci.pvt_info.last_ce_count
    · rw [if_pos h, if_neg (by omega)]
    · rw [if_neg h, if_pos (by omega)]

/-- Witness of C1: sub-counts `[3,0,0,0]` decode to 3; with the previous count 1
(stored by `pvt_init` from sub-counts `[1,0,0,0]`) the one report carries 2. -/
theorem edac_check_reports_delta_witness :
    read_ecc (const_mem (pack4 3 0 0 0))
        (pvt_init (const_mem (pack4 1 0 0 0)) (mk_mci 0 none 0) (some 4096)) = 3 ∧
    (pvt_init (const_mem (pack4 1 0 0 0)) (mk_mci 0 none 0) (some 4096)).pvt_info.last_ce_count
        = 1 ∧
    reports (edac_check (const_mem (pack4 3 0 0 0))
        (pvt_init (const_mem (pack4 1 0 0 0)) (mk_mci 0 none 0) (some 4096))).2 = [2] := by
  have h := edac_check_reports_delta (const_mem (pack4 3 0 0 0))
    (pvt_init (const_mem (pack4 1 0 0 0)) (mk_mci 0 none 0) (some 4096)) 4096
    (Reachable.init _ _ _) rfl
  have e3 : decoded (load_u64 (const_mem (pack4 3 0 0 0)) 4096 ECC_CS_COUNT) = 3 := by decide
  have e1 : (pvt_init (const_mem (pack4 1 0 0 0)) (mk_mci 0 none 0)
      (some 4096)).pvt_info.last_ce_count = 1 := by decide
  rw [e3, e1] at h
  exact ⟨h.1, e1, h.2.1⟩

/-- C2: with a register region bound, `read_ecc` returns the sum of the four
8-bit fields `v[7:0]`, `v[15:8]`, `v[23:16]`, `v[31:24]` of the 64-bit value `v`
in the per-chip-select count register (index `ECC_CS_COUNT`), and two register
values that agree on bits 0..31 give the same result. -/
theorem read_ecc_sums_fields (mem : Memory) (mci : mem_ctl_info) (base : Nat)
    (hb : mci.pvt_info.ecc_base = some base) :
    read_ecc mem mci =
      Int.ofNat (field8 (load_u64 mem base ECC_CS_COUNT) 0
        + field8 (load_u64 mem base ECC_CS_COUNT) 1
        + field8 (load_u64 mem base ECC_CS_COUNT) 2
        + field8 (load_u64 mem base ECC_CS_COUNT) 3) ∧
    ∀ mem2 : Memory,
      load_u64 mem2 base ECC_CS_COUNT % 4294967296
          = load_u64 mem base ECC_CS_COUNT % 4294967296 →
        read_ecc mem2 mci = read_ecc mem mci := by
  refine ⟨read_ecc_bound mem mci base hb, ?_⟩
  intro mem2 h
  rw [read_ecc_bound mem mci base hb, read_ecc_bound mem2 mci base hb,
    ← decoded_mod (load_u64 mem2 base ECC_CS_COUNT), h, decoded_mod]

/-- Witness of C2: sub-counts `[1,2,3,4]` give 10, also with bits 32..63 set. -/
theorem read_ecc_sums_fields_witness :
    read_ecc (const_mem (pack4 1 2 3 4)) (mk_mci 0 (some 4096) 7) = 10 ∧
    read_ecc (const_mem (pack4 1 2 3 4 + 4294967296 * 1193046)) (mk_mci 0 (some 4096) 7)
      = read_ecc (const_mem (pack4 1 2 3 4)) (mk_mci 0 (some 4096) 7) :=
  ⟨(read_ecc_sums_fields (const_mem (pack4 1 2 3 4)) (mk_mci 0 (some 4096) 7) 4096 rfl).1.trans
      (by decide),
   (read_ecc_sums_fields (const_mem (pack4 1 2 3 4)) (mk_mci 0 (some 4096) 7) 4096 rfl).2
      (const_mem (pack4 1 2 3 4 + 4294967296 * 1193046)) (by decide)⟩

/-- C3: for every stored previous count `p` (a C `int`) and every reading `n`
that `read_ecc` returns, `edac_check` changes the state only by storing `n` as
the previous count, whether or not it reports; when `n ≤ p` it emits nothing and
the stored count is `n` all the same. -/
theorem edac_check_stores_reading (mem : Memory) (mci : mem_ctl_info)
    (hp : INT_MIN ≤ mci.pvt_info.last_ce_count ∧ mci.pvt_info.last_ce_count ≤ INT_MAX) :
    (edac_check mem mci).1.pvt_info.last_ce_count = read_ecc mem mci ∧
    (edac_check mem mci).1.pvt_info.ecc_base = mci.pvt_info.ecc_base ∧
    (edac_check mem mci).1.mc_idx = mci.mc_idx ∧
    (read_ecc mem mci ≤ mci.pvt_info.last_ce_count →
      (edac_check mem mci).2 = [] ∧
      (edac_check mem mci).1.pvt_info.last_ce_count = read_ecc mem mci) := by
  rw [edac_check_state]
  refine ⟨rfl, rfl, rfl, ?_⟩
  intro hle
  refine ⟨?_, rfl⟩
  obtain ⟨hp0, hp1⟩ := hp
  unfold INT_MIN at hp0
  unfold INT_MAX at hp1
  have hlow : -2147483648 ≤ read_ecc mem mci - mci.pvt_info.last_ce_count := by
    cases hbase : mci.pvt_info.ecc_base with
    | none =>
      have : read_ecc mem mci = mci.pvt_info.last_ce_count := by
        unfold read_ecc
        simp only [hbase]
      omega
    | some base =>
      have hn := read_ecc_bound mem mci base hbase
      have hn0 := decoded_nonneg (load_u64 mem base ECC_CS_COUNT)
      omega
  rw [edac_check_events mem mci hlow (by omega), if_pos hle]

/-- Witness of C3: previous count 5, sub-counts `[3,0,0,0]`: no report, and 3 is
stored. -/
theorem edac_check_stores_reading_witness :
    (edac_check (const_mem (pack4 3 0 0 0)) (mk_mci 0 (some 4096) 5)).1.pvt_info.last_ce_count
      = 3 ∧
    (edac_check (const_mem (pack4 3 0 0 0)) (mk_mci 0 (some 4096) 5)).2 = [] := by
  have h := edac_check_stores_reading (const_mem (pack4 3 0 0 0)) (mk_mci 0 (some 4096) 5)
    (by decide)
  have e : read_ecc (const_mem (pack4 3 0 0 0)) (mk_mci 0 (some 4096) 5) = 3 := by decide
  exact ⟨h.1.trans e, (h.2.2.2 (by rw [e]; decide)).1⟩

/-- C6: with no register region bound, for every stored count `c` and every
sequence of polls (of any length, against any device memory): the state after
the polls is the initial state, so the stored count is still `c`; `read_ecc`
returns `c` before and after every one of them; and nothing is emitted. -/
theorem unbound_polls_are_silent (mems : List Memory) (mem : Memory) (mc_idx : Nat) (c : Int) :
    (run_checks mems (mk_mci mc_idx none c)).1 = mk_mci mc_idx none c ∧
    (run_checks mems (mk_mci mc_idx none c)).1.pvt_info.last_ce_count = c ∧
    read_ecc mem (run_checks mems (mk_mci mc_idx none c)).1 = c ∧
    (run_checks mems (mk_mci mc_idx none c)).2 = [] := by
  have hstep : ∀ m : Memory, edac_check m (mk_mci mc_idx none c) = (mk_mci mc_idx none c, []) := by
    intro m
    unfold edac_check
    have hr : read_ecc m (mk_mci mc_idx none c) = c := rfl
    simp only [hr]
    have hs : int_sub c (mk_mci mc_idx none c).pvt_info.last_ce_count = 0 := by
      show wrap32 (c - c) = 0
      rw [sub_self]
      rfl
    rw [hs]
    rfl
  have hrun : run_checks mems (mk_mci mc_idx none c) = (mk_mci mc_idx none c, []) := by
    induction mems with
    | nil => rfl
    | cons m ms ih =>
      simp only [run_checks, hstep m, ih, List.append_nil]
  rw [hrun]
  exact ⟨rfl, rfl, rfl, rfl⟩

/-- C9: from any state the driver reaches with a register region bound and
stored count `p0`, polling once per snapshot of the count register, with decoded
readings `r1 .. rk`, emits reports whose error counts sum to the sum of the
positive increments `max (r_i - r_(i-1)) 0` (with `r_0 = p0`); when
`p0 ≤ r1 ≤ ... ≤ rk` that sum is exactly `rk - p0`. -/
theorem reported_counts_sum (mems : List Memory) (mci : mem_ctl_info) (base : Nat)
    (hr : Reachable mci) (hb : mci.pvt_info.ecc_base = some base) :
    (reports (run_checks mems mci).2).sum =
        positive_increments mci.pvt_info.last_ce_count (readings base mems) ∧
    (nondecreasing_from mci.pvt_info.last_ce_count (readings base mems) →
      (reports (run_checks mems mci).2).sum =
        last_reading mci.pvt_info.last_ce_count (readings base mems)
          - mci.pvt_info.last_ce_count) := by
  have h := run_checks_sum mems mci base hr hb
  refine ⟨h, ?_⟩
  intro hmono
  rw [h, increments_monotone _ _ hmono]

/-- Witness of C9: stored count 1, then readings 3, 3, 7: reports 2 and 4, whose
sum 6 is `7 - 1`. -/
theorem reported_counts_sum_witness :
    reports (run_checks
        [const_mem (pack4 3 0 0 0), const_mem (pack4 1 1 1 0), const_mem (pack4 0 0 2 5)]
        (pvt_init (const_mem (pack4 1 0 0 0)) (mk_mci 0 none 0) (some 4096))).2 = [2, 4] ∧
    (reports (run_checks
        [const_mem (pack4 3 0 0 0), const_mem (pack4 1 1 1 0), const_mem (pack4 0 0 2 5)]
        (pvt_init (const_mem (pack4 1 0 0 0)) (mk_mci 0 none 0) (some 4096))).2).sum = 7 - 1 := by
  have h := reported_counts_sum
    [const_mem (pack4 3 0 0 0), const_mem (pack4 1 1 1 0), const_mem (pack4 0 0 2 5)]
    (pvt_init (const_mem (pack4 1 0 0 0)) (mk_mci 0 none 0) (some 4096)) 4096
    (Reachable.init _ _ _) rfl
  refine ⟨by decide, ?_⟩
  rw [h.2 (by decide)]
  decide

end LoongsonEdac

namespace LenovoSuperHotkey

open CArith

/-! ## The paths through the LED init -/

theorem evaluations_append (a b : List Event) :
    evaluations (a ++ b) = evaluations a ++ evaluations b := by
  induction a with
  | nil => rfl
  | cons e es ih => cases e <;> simp [evaluations, ih]

theorem registrations_append (a b : List Event) :
    registrations (a ++ b) = registrations a + registrations b := by
  induction a with
  | nil => simp [registrations]
  | cons e es ih =>
    cases e with
    | led_register d t c =>
      show 1 + registrations (es ++ b) = 1 + registrations es + registrations b
      rw [ih]
      omega
    | wmi_evaluate w i m inp o => exact ih
    | kfree ptr => exact ih
    | dev_err d f a => exact ih

theorem frees_append (x : Nat) (a b : List Event) :
    frees x (a ++ b) = frees x a + frees x b := by
  induction a with
  | nil => simp [frees]
  | cons e es ih =>
    cases e with
    | led_register d t c => exact ih
    | wmi_evaluate w i m inp o => exact ih
    | kfree ptr =>
      show (if ptr = some x then 1 else 0) + frees x (es ++ b)
        = (if ptr = some x then 1 else 0) + frees x es + frees x b
      rw [ih]
      omega
    | dev_err d f a => exact ih

theorem led_type_cases (led_type : Nat) (ht : led_type = MIC_MUTE ∨ led_type = AUDIO_MUTE) :
    (if led_type = MIC_MUTE then some WMI_LUD_GET_MICMUTE_LED_VER
      else if led_type = AUDIO_MUTE then some WMI_LUD_GET_AUDIOMUTE_LED_VER else none)
      = some (version_selector led_type) := by
  rcases ht with rfl | rfl <;> rfl

theorem led_init_call_failed {σ : Type} (k : Kernel σ) (led_type dev : Nat) (s : State σ)
    (ht : led_type = MIC_MUTE ∨ led_type = AUDIO_MUTE)
    (hf : ACPI_FAILURE (get_support_reply k led_type s).2.status = true) :
    lenovo_super_hotkey_wmi_led_init k led_type dev s = (- EIO, after_call k led_type s) := by
  unfold lenovo_super_hotkey_wmi_led_init
  simp only [led_type_cases led_type ht]
  unfold get_support_reply at hf
  rw [if_pos hf]
  rfl

theorem led_init_no_object {σ : Type} (k : Kernel σ) (led_type dev : Nat) (s : State σ)
    (ht : led_type = MIC_MUTE ∨ led_type = AUDIO_MUTE)
    (hf : ACPI_FAILURE (get_support_reply k led_type s).2.status = false)
    (hp : (get_support_reply k led_type s).2.pointer = none) :
    lenovo_super_hotkey_wmi_led_init k led_type dev s =
      (- EIO, emit (after_call k led_type s) (Event.kfree none)) := by
  unfold lenovo_super_hotkey_wmi_led_init
  simp only [led_type_cases led_type ht]
  unfold get_support_reply at hf hp
  simp only [hf, hp, Bool.false_eq_true, if_false]
  rfl

theorem led_init_not_integer {σ : Type} (k : Kernel σ) (led_type dev : Nat) (s : State σ)
    (ht : led_type = MIC_MUTE ∨ led_type = AUDIO_MUTE)
    (hf : ACPI_FAILURE (get_support_reply k led_type s).2.status = false)
    (addr : Nat) (o : acpi_object)
    (hp : (get_support_reply k led_type s).2.pointer = some (addr, o))
    (hty : o.type ≠ ACPI_TYPE_INTEGER) :
    lenovo_super_hotkey_wmi_led_init k led_type dev s =
      (- EIO, emit (after_call k led_type s) (Event.kfree (some addr))) := by
  unfold lenovo_super_hotkey_wmi_led_init
  simp only [led_type_cases led_type ht]
  unfold get_support_reply at hf hp
  simp only [hf, hp, if_neg hty, Bool.false_eq_true, if_false]
  rfl

theorem led_init_mismatch {σ : Type} (k : Kernel σ) (led_type dev : Nat) (s : State σ)
    (ht : led_type = MIC_MUTE ∨ led_type = AUDIO_MUTE)
    (hf : ACPI_FAILURE (get_support_reply k led_type s).2.status = false)
    (addr : Nat) (o : acpi_object)
    (hp : (get_support_reply k led_type s).2.pointer = some (addr, o))
    (hty : o.type = ACPI_TYPE_INTEGER)
    (hv : u64_to_int (wrap64 o.integer_value) ≠ Int.ofNat (expected_version led_type)) :
    lenovo_super_hotkey_wmi_led_init k led_type dev s =
      (- EIO, emit (after_read k led_type dev addr s) (Event.kfree (some addr))) := by
  unfold lenovo_super_hotkey_wmi_led_init
  simp only [led_type_cases led_type ht]
  unfold get_support_reply at hf hp
  simp only [hf, hp, if_pos hty, Bool.false_eq_true, if_false]
  rcases ht with rfl | rfl
  · have hv2 : u64_to_int (wrap64 o.integer_value) ≠ WMI_LUD_SUPPORT_MICMUTE_LED_VER := hv
    simp only [if_true, if_pos hv2]
    rfl
  · have hv2 : u64_to_int (wrap64 o.integer_value) ≠ WMI_LUD_SUPPORT_AUDIOMUTE_LED_VER := hv
    have hne : ¬ AUDIO_MUTE = MIC_MUTE := by decide
    simp only [if_neg hne, if_true, if_pos hv2]
    rfl

theorem led_init_match {σ : Type} (k : Kernel σ) (led_type dev : Nat) (s : State σ)
    (ht : led_type = MIC_MUTE ∨ led_type = AUDIO_MUTE)
    (hf : ACPI_FAILURE (get_support_reply k led_type s).2.status = false)
    (addr : Nat) (o : acpi_object)
    (hp : (get_support_reply k led_type s).2.pointer = some (addr, o))
    (hty : o.type = ACPI_TYPE_INTEGER)
    (hv : u64_to_int (wrap64 o.integer_value) = Int.ofNat (expected_version led_type)) :
    lenovo_super_hotkey_wmi_led_init k led_type dev s =
      if (registration k led_type dev s).2.1 < 0 then
        ((registration k led_type dev s).2.1,
          emit (emit (after_register k led_type dev addr s)
            (Event.dev_err dev "Could not register mute LED %d : %d\n"
              [Int.ofNat led_type, (registration k led_type dev s).2.1]))
            (Event.kfree (some addr)))
      else (0, after_register k led_type dev addr s) := by
  unfold lenovo_super_hotkey_wmi_led_init
  simp only [led_type_cases led_type ht]
  unfold get_support_reply at hf hp
  simp only [hf, hp, if_pos hty, Bool.false_eq_true, if_false]
  rcases ht with rfl | rfl
  · have hv2 : ¬ u64_to_int (wrap64 o.integer_value) ≠ WMI_LUD_SUPPORT_MICMUTE_LED_VER :=
      not_not.mpr hv
    simp only [if_true, if_neg hv2]
    rfl
  · have hv2 : ¬ u64_to_int (wrap64 o.integer_value) ≠ WMI_LUD_SUPPORT_AUDIOMUTE_LED_VER :=
      not_not.mpr hv
    have hne : ¬ AUDIO_MUTE = MIC_MUTE := by decide
    simp only [if_neg hne, if_true, if_neg hv2]
    rfl

theorem emit_trace {σ : Type} (s : State σ) (e : Event) : (emit s e).trace = s.trace ++ [e] := rfl

theorem after_call_trace {σ : Type} (k : Kernel σ) (led_type : Nat) (s : State σ) :
    (after_call k led_type s).trace =
      s.trace ++ [Event.wmi_evaluate s.wpriv.led_wdev 0 WMI_LUD_GET_SUPPORT
        (get_support_input (version_selector led_type)) true] := rfl

theorem after_read_trace {σ : Type} (k : Kernel σ) (led_type dev addr : Nat) (s : State σ) :
    (after_read k led_type dev addr s).trace =
      s.trace ++ [Event.wmi_evaluate s.wpriv.led_wdev 0 WMI_LUD_GET_SUPPORT
        (get_support_input (version_selector led_type)) true, Event.kfree (some addr)] := by
  show (s.trace ++ [_]) ++ [_] = _
  rw [List.append_assoc]
  rfl

theorem after_register_trace {σ : Type} (k : Kernel σ) (led_type dev addr : Nat) (s : State σ) :
    (after_register k led_type dev addr s).trace =
      s.trace ++ [Event.wmi_evaluate s.wpriv.led_wdev 0 WMI_LUD_GET_SUPPORT
        (get_support_input (version_selector led_type)) true, Event.kfree (some addr),
        Event.led_register dev led_type (prepared_cdev led_type dev (s.wpriv.cdev led_type))] := by
  show (after_read k led_type dev addr s).trace ++ [_] = _
  rw [after_read_trace, List.append_assoc]
  rfl

theorem after_read_cdev {σ : Type} (k : Kernel σ) (led_type dev addr : Nat) (s : State σ)
    (j : Nat) (hj : j ≠ led_type) :
    (after_read k led_type dev addr s).wpriv.cdev j = s.wpriv.cdev j := by
  show (if j = led_type then _ else s.wpriv.cdev j) = _
  rw [if_neg hj]

theorem after_register_cdev {σ : Type} (k : Kernel σ) (led_type dev addr : Nat) (s : State σ)
    (j : Nat) (hj : j ≠ led_type) :
    (after_register k led_type dev addr s).wpriv.cdev j = s.wpriv.cdev j := by
  show (if j = led_type then _ else (after_read k led_type dev addr s).wpriv.cdev j) = _
  rw [if_neg hj, after_read_cdev k led_type dev addr s j hj]

theorem led_init_invalid {σ : Type} (k : Kernel σ) (led_type dev : Nat) (s : State σ)
    (h0 : led_type ≠ MIC_MUTE) (h1 : led_type ≠ AUDIO_MUTE) :
    lenovo_super_hotkey_wmi_led_init k led_type dev s = (- EINVAL, s) := by
  unfold lenovo_super_hotkey_wmi_led_init
  simp only [if_neg h0, if_neg h1]

/-- What one run of `lenovo_super_hotkey_wmi_led_init` for a valid LED type does to
the state: it appends the get-support call and then calls other than firmware
method calls, keeps the bound WMI device and the event type, and leaves every
descriptor other than its own as it was. -/
theorem led_init_effects {σ : Type} (k : Kernel σ) (led_type dev : Nat) (s : State σ)
    (ht : led_type = MIC_MUTE ∨ led_type = AUDIO_MUTE) :
    (∃ tail, (lenovo_super_hotkey_wmi_led_init k led_type dev s).2.trace =
        s.trace ++ Event.wmi_evaluate s.wpriv.led_wdev 0 WMI_LUD_GET_SUPPORT
          (get_support_input (version_selector led_type)) true :: tail ∧
        evaluations tail = []) ∧
    (lenovo_super_hotkey_wmi_led_init k led_type dev s).2.wpriv.led_wdev = s.wpriv.led_wdev ∧
    (lenovo_super_hotkey_wmi_led_init k led_type dev s).2.wpriv.event = s.wpriv.event ∧
    ∀ j, j ≠ led_type →
      (lenovo_super_hotkey_wmi_led_init k led_type dev s).2.wpriv.cdev j = s.wpriv.cdev j := by
  cases hf : ACPI_FAILURE (get_support_reply k led_type s).2.status
  · cases hp : (get_support_reply k led_type s).2.pointer with
    | none =>
      rw [led_init_no_object k led_type dev s ht hf hp]
      exact ⟨⟨[Event.kfree none], by simp [emit_trace, after_call_trace], rfl⟩, rfl, rfl,
        fun _ _ => rfl⟩
    | some p =>
      obtain ⟨a, o⟩ := p
      by_cases hty : o.type = ACPI_TYPE_INTEGER
      · by_cases hv : u64_to_int (wrap64 o.integer_value) = Int.ofNat (expected_version led_type)
        · rw [led_init_match k led_type dev s ht hf a o hp hty hv]
          split
          · refine ⟨⟨[Event.kfree (some a),
              Event.led_register dev led_type (prepared_cdev led_type dev (s.wpriv.cdev led_type)),
              Event.dev_err dev "Could not register mute LED %d : %d\n"
                [Int.ofNat led_type, (registration k led_type dev s).2.1],
              Event.kfree (some a)], ?_, ?_⟩, rfl, rfl, ?_⟩
            · simp only [emit_trace, after_register_trace, List.append_assoc, List.cons_append,
                List.nil_append]
            · rfl
            · intro j hj
              exact after_register_cdev k led_type dev a s j hj
          · refine ⟨⟨[Event.kfree (some a),
              Event.led_register dev led_type (prepared_cdev led_type dev (s.wpriv.cdev led_type))],
              ?_, ?_⟩, rfl, rfl, ?_⟩
            · simp only [after_register_trace, List.append_assoc, List.cons_append,
                List.nil_append]
            · rfl
            · intro j hj
              exact after_register_cdev k led_type dev a s j hj
        · rw [led_init_mismatch k led_type dev s ht hf a o hp hty hv]
          refine ⟨⟨[Event.kfree (some a), Event.kfree (some a)], ?_, ?_⟩, rfl, rfl, ?_⟩
          · simp only [emit_trace, after_read_trace, List.append_assoc, List.cons_append,
              List.nil_append]
          · rfl
          · intro j hj
            exact after_read_cdev k led_type dev a s j hj
      · rw [led_init_not_integer k led_type dev s ht hf a o hp hty]
        exact ⟨⟨[Event.kfree (some a)], by simp [emit_trace, after_call_trace], rfl⟩, rfl, rfl,
          fun _ _ => rfl⟩
  · rw [led_init_call_failed k led_type dev s ht hf]
    exact ⟨⟨[], by simp [after_call_trace], rfl⟩, rfl, rfl, fun _ _ => rfl⟩

theorem version_conversion (v e : Nat) (hv : v < 4294967296) (he : e ≤ 27) :
    u64_to_int (wrap64 v) = Int.ofNat e ↔ v = e := by
  unfold u64_to_int wrap64 wrap32
  have e1 : Int.ofNat (v % 18446744073709551616) = (v : Int) := by
    have : v % 18446744073709551616 = v := by omega
    rw [this]
    rfl
  have e2 : Int.ofNat e = (e : Int) := rfl
  rw [e1, e2]
  omega

theorem expected_version_le (led_type : Nat) : expected_version led_type ≤ 27 := by
  unfold expected_version
  split <;> omega

theorem registrations_after_call {σ : Type} (k : Kernel σ) (led_type : Nat) (s : State σ) :
    registrations (after_call k led_type s).trace = registrations s.trace := by
  rw [after_call_trace, registrations_append]
  rfl

theorem registrations_after_read {σ : Type} (k : Kernel σ) (led_type dev addr : Nat)
    (s : State σ) :
    registrations (after_read k led_type dev addr s).trace = registrations s.trace := by
  rw [after_read_trace, registrations_append]
  rfl

theorem registrations_emit_kfree {σ : Type} (s : State σ) (p : Option Nat) :
    registrations (emit s (Event.kfree p)).trace = registrations s.trace := by
  rw [emit_trace, registrations_append]
  rfl

/-- The three ways the version check of `lenovo_super_hotkey_wmi_led_init` fails all
return `-EIO` without a registration call. -/
theorem led_init_unsupported {σ : Type} (k : Kernel σ) (led_type dev : Nat) (s : State σ)
    (ht : led_type = MIC_MUTE ∨ led_type = AUDIO_MUTE)
    (h : ACPI_FAILURE (get_support_reply k led_type s).2.status = true ∨
      (∀ a o, (get_support_reply k led_type s).2.pointer = some (a, o) →
        o.type ≠ ACPI_TYPE_INTEGER) ∨
      (∀ a o, (get_support_reply k led_type s).2.pointer = some (a, o) →
        u64_to_int (wrap64 o.integer_value) ≠ Int.ofNat (expected_version led_type))) :
    (lenovo_super_hotkey_wmi_led_init k led_type dev s).1 = - EIO ∧
    registrations (lenovo_super_hotkey_wmi_led_init k led_type dev s).2.trace =
      registrations s.trace := by
  cases hf : ACPI_FAILURE (get_support_reply k led_type s).2.status
  · cases hp : (get_support_reply k led_type s).2.pointer with
    | none =>
      rw [led_init_no_object k led_type dev s ht hf hp]
      exact ⟨rfl, by rw [registrations_emit_kfree, registrations_after_call]⟩
    | some p =>
      obtain ⟨a, o⟩ := p
      by_cases hty : o.type = ACPI_TYPE_INTEGER
      · by_cases hv : u64_to_int (wrap64 o.integer_value) = Int.ofNat (expected_version led_type)
        · rcases h with h | h | h
          · rw [hf] at h
            exact absurd h (by decide)
          · exact absurd hty (h a o hp)
          · exact absurd hv (h a o hp)
        · rw [led_init_mismatch k led_type dev s ht hf a o hp hty hv]
          exact ⟨rfl, by rw [registrations_emit_kfree, registrations_after_read]⟩
      · rw [led_init_not_integer k led_type dev s ht hf a o hp hty]
        exact ⟨rfl, by rw [registrations_emit_kfree, registrations_after_call]⟩
  · rw [led_init_call_failed k led_type dev s ht hf]
    exact ⟨rfl, registrations_after_call k led_type s⟩

/-! ## Claims about the mute-LED driver -/

/-- C4: `lsh_wmi_mute_led_set` makes exactly one firmware call, to method 2 (set
feature), with a 4-byte argument record whose `subid` and `value` are 0 and whose
`id` is 1 (microphone, `LED_ON`), 2 (microphone, any other brightness, `LED_OFF`
included), 4 (audio, `LED_ON`) or 5 (audio, any other brightness). -/
theorem mute_led_set_argument {σ : Type} (k : Kernel σ) (brightness : Nat) (s : State σ) :
    (lsh_wmi_mute_led_set k MIC_MUTE brightness s).2.trace =
      s.trace ++ [Event.wmi_evaluate s.wpriv.led_wdev 0 2
        { length := 4, pointer := wmi_payload.led_args
            { id := if brightness = LED_ON then 1 else 2, subid := 0, value := 0 } } false] ∧
    (lsh_wmi_mute_led_set k AUDIO_MUTE brightness s).2.trace =
      s.trace ++ [Event.wmi_evaluate s.wpriv.led_wdev 0 2
        { length := 4, pointer := wmi_payload.led_args
            { id := if brightness = LED_ON then 4 else 5, subid := 0, value := 0 } } false] ∧
    evaluations (lsh_wmi_mute_led_set k MIC_MUTE LED_ON s).2.trace =
      evaluations s.trace ++ [(2, { length := 4, pointer := wmi_payload.led_args ⟨1, 0, 0⟩ })] ∧
    evaluations (lsh_wmi_mute_led_set k MIC_MUTE LED_OFF s).2.trace =
      evaluations s.trace ++ [(2, { length := 4, pointer := wmi_payload.led_args ⟨2, 0, 0⟩ })] ∧
    evaluations (lsh_wmi_mute_led_set k AUDIO_MUTE LED_ON s).2.trace =
      evaluations s.trace ++ [(2, { length := 4, pointer := wmi_payload.led_args ⟨4, 0, 0⟩ })] ∧
    evaluations (lsh_wmi_mute_led_set k AUDIO_MUTE LED_OFF s).2.trace =
      evaluations s.trace ++ [(2, { length := 4, pointer := wmi_payload.led_args ⟨5, 0, 0⟩ })] := by
  have hmic : ∀ b : Nat, (lsh_wmi_mute_led_set k MIC_MUTE b s).2.trace =
      s.trace ++ [Event.wmi_evaluate s.wpriv.led_wdev 0 2
        { length := 4, pointer := wmi_payload.led_args
            { id := if b = LED_ON then 1 else 2, subid := 0, value := 0 } } false] := by
    intro b
    unfold lsh_wmi_mute_led_set
    by_cases hb : b = LED_ON
    · simp only [if_true, if_pos hb]
      split <;> rfl
    · simp only [if_true, if_neg hb]
      split <;> rfl
  have haud : ∀ b : Nat, (lsh_wmi_mute_led_set k AUDIO_MUTE b s).2.trace =
      s.trace ++ [Event.wmi_evaluate s.wpriv.led_wdev 0 2
        { length := 4, pointer := wmi_payload.led_args
            { id := if b = LED_ON then 4 else 5, subid := 0, value := 0 } } false] := by
    intro b
    unfold lsh_wmi_mute_led_set
    have hne : ¬ AUDIO_MUTE = MIC_MUTE := by decide
    by_cases hb : b = LED_ON
    · simp only [if_neg hne, if_true, if_pos hb]
      split <;> rfl
    · simp only [if_neg hne, if_true, if_neg hb]
      split <;> rfl
  refine ⟨hmic brightness, haud brightness, ?_, ?_, ?_, ?_⟩
  · rw [hmic, evaluations_append]; rfl
  · rw [hmic, evaluations_append]; rfl
  · rw [haud, evaluations_append]; rfl
  · rw [haud, evaluations_append]; rfl

/-- C5: for the microphone and the audio LED, when the integer the firmware returns is a
32-bit value, `lenovo_super_hotkey_wmi_led_init` returns 0 if and only if the
get-support call succeeds, the object it returns is an integer, that integer is
the version constant expected for the type (25, 27), and the registration call
does not fail; a failed call, a result that is not an integer, and any other
version value each return `-EIO`, with no registration call made. -/
theorem led_init_result {σ : Type} (k : Kernel σ) (led_type dev : Nat) (s : State σ)
    (ht : led_type = MIC_MUTE ∨ led_type = AUDIO_MUTE)
    (h32 : ∀ a o, (get_support_reply k led_type s).2.pointer = some (a, o) →
      o.integer_value < 4294967296) :
    ((lenovo_super_hotkey_wmi_led_init k led_type dev s).1 = 0 ↔
      ACPI_FAILURE (get_support_reply k led_type s).2.status = false ∧
      (∃ a o, (get_support_reply k led_type s).2.pointer = some (a, o) ∧
        o.type = ACPI_TYPE_INTEGER ∧ o.integer_value = expected_version led_type) ∧
      0 ≤ (registration k led_type dev s).2.1) ∧
    (ACPI_FAILURE (get_support_reply k led_type s).2.status = true →
      (lenovo_super_hotkey_wmi_led_init k led_type dev s).1 = - EIO ∧
      registrations (lenovo_super_hotkey_wmi_led_init k led_type dev s).2.trace =
        registrations s.trace) ∧
    ((∀ a o, (get_support_reply k led_type s).2.pointer = some (a, o) →
        o.type ≠ ACPI_TYPE_INTEGER) →
      (lenovo_super_hotkey_wmi_led_init k led_type dev s).1 = - EIO ∧
      registrations (lenovo_super_hotkey_wmi_led_init k led_type dev s).2.trace =
        registrations s.trace) ∧
    ((∀ a o, (get_support_reply k led_type s).2.pointer = some (a, o) →
        o.integer_value ≠ expected_version led_type) →
      (lenovo_super_hotkey_wmi_led_init k led_type dev s).1 = - EIO ∧
      registrations (lenovo_super_hotkey_wmi_led_init k led_type dev s).2.trace =
        registrations s.trace) := by
  have hconv : ∀ a o, (get_support_reply k led_type s).2.pointer = some (a, o) →
      (u64_to_int (wrap64 o.integer_value) = Int.ofNat (expected_version led_type) ↔
        o.integer_value = expected_version led_type) := by
    intro a o hp
    exact version_conversion _ _ (h32 a o hp) (expected_version_le led_type)
  refine ⟨?_, ?_, ?_, ?_⟩
  · by_cases hgood : ACPI_FAILURE (get_support_reply k led_type s).2.status = false ∧
        ∃ a o, (get_support_reply k led_type s).2.pointer = some (a, o) ∧
          o.type = ACPI_TYPE_INTEGER ∧ o.integer_value = expected_version led_type
    · obtain ⟨hf, a, o, hp, hty, hv⟩ := hgood
      rw [led_init_match k led_type dev s ht hf a o hp hty ((hconv a o hp).mpr hv)]
      by_cases hreg : (registration k led_type dev s).2.1 < 0
      · rw [if_pos hreg]
        constructor
        · intro h0
          have h0 : (registration k led_type dev s).2.1 = 0 := h0
          omega
        · rintro ⟨_, _, h3⟩
          omega
      · rw [if_neg hreg]
        constructor
        · intro _
          exact ⟨hf, ⟨a, o, hp, hty, hv⟩, by omega⟩
        · intro _
          rfl
    · have hbad := (led_init_unsupported k led_type dev s ht (by
        by_contra hcon
        push_neg at hcon
        obtain ⟨h1, ⟨a, o, hp, hty⟩, ⟨a2, o2, hp2, hv⟩⟩ := hcon
        have hsame : (a, o) = (a2, o2) := Option.some.inj (hp.symm.trans hp2)
        have ho : o = o2 := (Prod.mk.inj hsame).2
        subst ho
        apply hgood
        refine ⟨?_, a, o, hp, hty, (hconv a o hp).mp hv⟩
        cases hc : ACPI_FAILURE (get_support_reply k led_type s).2.status
        · rfl
        · exact absurd hc h1)).1
      rw [hbad]
      constructor
      · intro h0
        exact absurd h0 (by decide)
      · rintro ⟨h1, h2, _⟩
        exact absurd ⟨h1, h2⟩ hgood
  · intro h
    exact led_init_unsupported k led_type dev s ht (Or.inl h)
  · intro h
    exact led_init_unsupported k led_type dev s ht (Or.inr (Or.inl h))
  · intro h
    refine led_init_unsupported k led_type dev s ht (Or.inr (Or.inr ?_))
    intro a o hp hv
    exact h a o hp ((hconv a o hp).mp hv)

/-- Witness of C5: for the microphone LED version 25 succeeds, 24 and 26 fail with
`-EIO`. -/
theorem led_init_result_witness :
    (lenovo_super_hotkey_wmi_led_init (fixed_kernel 0 (some (4096, integer_object 25)) 0 true)
      MIC_MUTE 7 bound_state).1 = 0 ∧
    (lenovo_super_hotkey_wmi_led_init (fixed_kernel 0 (some (4096, integer_object 24)) 0 true)
      MIC_MUTE 7 bound_state).1 = - EIO ∧
    (lenovo_super_hotkey_wmi_led_init (fixed_kernel 0 (some (4096, integer_object 26)) 0 true)
      MIC_MUTE 7 bound_state).1 = - EIO :=
  ⟨(led_init_result (fixed_kernel 0 (some (4096, integer_object 25)) 0 true) MIC_MUTE 7
      bound_state (Or.inl rfl)
      (by intro a o h; cases h; decide)).1.mpr
      ⟨rfl, ⟨4096, integer_object 25, rfl, rfl, rfl⟩, by decide⟩,
   ((led_init_result (fixed_kernel 0 (some (4096, integer_object 24)) 0 true) MIC_MUTE 7
      bound_state (Or.inl rfl)
      (by intro a o h; cases h; decide)).2.2.2
      (by intro a o h; cases h; decide)).1,
   ((led_init_result (fixed_kernel 0 (some (4096, integer_object 26)) 0 true) MIC_MUTE 7
      bound_state (Or.inl rfl)
      (by intro a o h; cases h; decide)).2.2.2
      (by intro a o h; cases h; decide)).1⟩

/-- C7: the two LEDs are set up independently. Whatever the kernel and the
firmware answer, `lenovo_super_hotkey_wmi_leds_setup` makes the get-support
call of the audio LED right after everything the init of the microphone LED did;
`lenovo_super_hotkey_wmi_led_init` for one type changes nothing of the driver
data but the descriptor `cdev[led_type]` (every descriptor `cdev[j]` of another
index `j`, the bound WMI device and the event type stay as they were); and
`lenovo_super_hotkey_wmi_probe` returns 0 whenever its allocation succeeds. -/
theorem leds_set_up_independently {σ : Type} (k : Kernel σ) (dev : Nat) (s : State σ) :
    (∃ tail, (lenovo_super_hotkey_wmi_leds_setup k dev s).trace =
      (lenovo_super_hotkey_wmi_led_init k MIC_MUTE dev s).2.trace ++
        Event.wmi_evaluate s.wpriv.led_wdev 0 WMI_LUD_GET_SUPPORT
          (get_support_input WMI_LUD_GET_AUDIOMUTE_LED_VER) true :: tail) ∧
    (∀ led_type j : Nat, j ≠ led_type →
      (lenovo_super_hotkey_wmi_led_init k led_type dev s).2.wpriv.cdev j = s.wpriv.cdev j) ∧
    (∀ led_type : Nat,
      (lenovo_super_hotkey_wmi_led_init k led_type dev s).2.wpriv.led_wdev = s.wpriv.led_wdev ∧
      (lenovo_super_hotkey_wmi_led_init k led_type dev s).2.wpriv.event = s.wpriv.event) ∧
    (lenovo_super_hotkey_wmi_led_init k MIC_MUTE dev s).2.wpriv.cdev AUDIO_MUTE
      = s.wpriv.cdev AUDIO_MUTE ∧
    (lenovo_super_hotkey_wmi_led_init k AUDIO_MUTE dev s).2.wpriv.cdev MIC_MUTE
      = s.wpriv.cdev MIC_MUTE ∧
    (∀ (wdev : Nat) (context : lenovo_super_hotkey_wmi_private) (world : σ)
        (trace : List Event),
      (k.devm_kzalloc world).2 = true →
        (lenovo_super_hotkey_wmi_probe k wdev context world trace).1 = 0) := by
  have hframe : ∀ led_type j : Nat, j ≠ led_type →
      (lenovo_super_hotkey_wmi_led_init k led_type dev s).2.wpriv.cdev j = s.wpriv.cdev j := by
    intro led_type j hj
    by_cases h0 : led_type = MIC_MUTE
    · exact (led_init_effects k led_type dev s (Or.inl h0)).2.2.2 j hj
    · by_cases h1 : led_type = AUDIO_MUTE
      · exact (led_init_effects k led_type dev s (Or.inr h1)).2.2.2 j hj
      · rw [led_init_invalid k led_type dev s h0 h1]
  have hrest : ∀ led_type : Nat,
      (lenovo_super_hotkey_wmi_led_init k led_type dev s).2.wpriv.led_wdev = s.wpriv.led_wdev ∧
      (lenovo_super_hotkey_wmi_led_init k led_type dev s).2.wpriv.event = s.wpriv.event := by
    intro led_type
    by_cases h0 : led_type = MIC_MUTE
    · exact ⟨(led_init_effects k led_type dev s (Or.inl h0)).2.1,
        (led_init_effects k led_type dev s (Or.inl h0)).2.2.1⟩
    · by_cases h1 : led_type = AUDIO_MUTE
      · exact ⟨(led_init_effects k led_type dev s (Or.inr h1)).2.1,
          (led_init_effects k led_type dev s (Or.inr h1)).2.2.1⟩
      · rw [led_init_invalid k led_type dev s h0 h1]
        exact ⟨rfl, rfl⟩
  refine ⟨?_, hframe, hrest, hframe MIC_MUTE AUDIO_MUTE (by decide),
    hframe AUDIO_MUTE MIC_MUTE (by decide), ?_⟩
  · obtain ⟨⟨tail, htail, _⟩, _, _, _⟩ := led_init_effects k AUDIO_MUTE dev
      (lenovo_super_hotkey_wmi_led_init k MIC_MUTE dev s).2 (Or.inr rfl)
    have hw := (led_init_effects k MIC_MUTE dev s (Or.inl rfl)).2.1
    rw [hw] at htail
    exact ⟨tail, htail⟩
  · intro wdev context world trace halloc
    unfold lenovo_super_hotkey_wmi_probe
    have hne : ¬ (k.devm_kzalloc world).2 = false := by
      rw [halloc]
      decide
    simp only [if_neg hne]
    split <;> rfl

/-- Witness of C7: the version of the microphone LED is refused (24), the audio
descriptor is still all zero, and probe returns 0. -/
theorem leds_set_up_independently_witness :
    (lenovo_super_hotkey_wmi_led_init (fixed_kernel 0 (some (4096, integer_object 24)) 0 true)
      MIC_MUTE 7 bound_state).2.wpriv.cdev AUDIO_MUTE = led_classdev_zero ∧
    (lenovo_super_hotkey_wmi_probe (fixed_kernel 0 (some (4096, integer_object 24)) 0 true)
      7 lsk_wmi_context_lud_keys () []).1 = 0 :=
  ⟨(leds_set_up_independently (fixed_kernel 0 (some (4096, integer_object 24)) 0 true) 7
      bound_state).2.1 MIC_MUTE AUDIO_MUTE (by decide),
   (leds_set_up_independently (fixed_kernel 0 (some (4096, integer_object 24)) 0 true) 7
      bound_state).2.2.2.2.2 7 lsk_wmi_context_lud_keys () [] rfl⟩

/-- C8 as stated fails: the input buffer of the get-support call for the microphone LED
is not 2 bytes long; it is the 4 bytes of an `unsigned int`. -/
theorem selector_buffer_is_not_two_bytes :
    evaluations (lenovo_super_hotkey_wmi_led_init
        (fixed_kernel 0 (some (4096, integer_object 25)) 0 true) MIC_MUTE 7 bound_state).2.trace
      = [(1, { length := 4, pointer := wmi_payload.selector 20 })] ∧
    ¬ evaluations (lenovo_super_hotkey_wmi_led_init
        (fixed_kernel 0 (some (4096, integer_object 25)) 0 true) MIC_MUTE 7 bound_state).2.trace
      = [(1, { length := 2, pointer := wmi_payload.selector 20 })] := by
  decide

/-- C8, amended: `lenovo_super_hotkey_wmi_led_init` makes exactly one firmware
call, to method 1 (get support), with an input buffer that is an `unsigned int`
selector (4 bytes) whose value is 20 for the microphone LED and 26 for the audio
LED. -/
theorem get_support_selector {σ : Type} (k : Kernel σ) (dev : Nat) (s : State σ) :
    evaluations (lenovo_super_hotkey_wmi_led_init k MIC_MUTE dev s).2.trace =
      evaluations s.trace ++ [(1, { length := 4, pointer := wmi_payload.selector 20 })] ∧
    evaluations (lenovo_super_hotkey_wmi_led_init k AUDIO_MUTE dev s).2.trace =
      evaluations s.trace ++ [(1, { length := 4, pointer := wmi_payload.selector 26 })] := by
  constructor
  · obtain ⟨⟨tail, htail, hev⟩, _⟩ := led_init_effects k MIC_MUTE dev s (Or.inl rfl)
    rw [htail, evaluations_append]
    show evaluations s.trace ++ (_ :: evaluations tail) = _
    rw [hev]
    rfl
  · obtain ⟨⟨tail, htail, hev⟩, _⟩ := led_init_effects k AUDIO_MUTE dev s (Or.inr rfl)
    rw [htail, evaluations_append]
    show evaluations s.trace ++ (_ :: evaluations tail) = _
    rw [hev]
    rfl

/-- On the path of `lenovo_super_hotkey_wmi_led_init` where the version does not
match, the output object is released twice. -/
theorem led_init_mismatch_frees {σ : Type} (k : Kernel σ) (led_type dev : Nat) (s : State σ)
    (ht : led_type = MIC_MUTE ∨ led_type = AUDIO_MUTE)
    (hf : ACPI_FAILURE (get_support_reply k led_type s).2.status = false)
    (addr : Nat) (o : acpi_object)
    (hp : (get_support_reply k led_type s).2.pointer = some (addr, o))
    (hty : o.type = ACPI_TYPE_INTEGER)
    (hv : u64_to_int (wrap64 o.integer_value) ≠ Int.ofNat (expected_version led_type)) :
    frees addr (lenovo_super_hotkey_wmi_led_init k led_type dev s).2.trace =
      frees addr s.trace + 2 := by
  rw [led_init_mismatch k led_type dev s ht hf addr o hp hty hv]
  simp only [emit_trace, after_read_trace, frees_append, frees, if_true]

/-- On the paths of `lenovo_super_hotkey_wmi_led_init` where the version matches,
the output object is released twice when the registration fails and once when
it does not. -/
theorem led_init_match_frees {σ : Type} (k : Kernel σ) (led_type dev : Nat) (s : State σ)
    (ht : led_type = MIC_MUTE ∨ led_type = AUDIO_MUTE)
    (hf : ACPI_FAILURE (get_support_reply k led_type s).2.status = false)
    (addr : Nat) (o : acpi_object)
    (hp : (get_support_reply k led_type s).2.pointer = some (addr, o))
    (hty : o.type = ACPI_TYPE_INTEGER)
    (hv : u64_to_int (wrap64 o.integer_value) = Int.ofNat (expected_version led_type)) :
    frees addr (lenovo_super_hotkey_wmi_led_init k led_type dev s).2.trace =
      frees addr s.trace + (if (registration k led_type dev s).2.1 < 0 then 2 else 1) := by
  rw [led_init_match k led_type dev s ht hf addr o hp hty hv]
  split
  · simp only [emit_trace, after_register_trace, frees_append, frees, if_true]
  · simp only [after_register_trace, frees_append, frees, if_true]

/-- On the path of `lenovo_super_hotkey_wmi_led_init` where the output object is not
an integer, it is released once. -/
theorem led_init_not_integer_frees {σ : Type} (k : Kernel σ) (led_type dev : Nat) (s : State σ)
    (ht : led_type = MIC_MUTE ∨ led_type = AUDIO_MUTE)
    (hf : ACPI_FAILURE (get_support_reply k led_type s).2.status = false)
    (addr : Nat) (o : acpi_object)
    (hp : (get_support_reply k led_type s).2.pointer = some (addr, o))
    (hty : o.type ≠ ACPI_TYPE_INTEGER) :
    frees addr (lenovo_super_hotkey_wmi_led_init k led_type dev s).2.trace =
      frees addr s.trace + 1 := by
  rw [led_init_not_integer k led_type dev s ht hf addr o hp hty]
  simp only [emit_trace, after_call_trace, frees_append, frees, if_true]

/-- C10 fails on the code: with the version of the microphone LED refused (24), and
with the version accepted (25) but the registration failing (`-ENOMEM`),
`lenovo_super_hotkey_wmi_led_init` releases the output object of the firmware twice;
on the success path it releases it once. -/
theorem led_init_releases_output_twice :
    frees 4096 (lenovo_super_hotkey_wmi_led_init
      (fixed_kernel 0 (some (4096, integer_object 24)) 0 true) MIC_MUTE 7 bound_state).2.trace = 2 ∧
    frees 4096 (lenovo_super_hotkey_wmi_led_init
      (fixed_kernel 0 (some (4096, integer_object 25)) (-12) true) MIC_MUTE 7
        bound_state).2.trace = 2 ∧
    frees 4096 (lenovo_super_hotkey_wmi_led_init
      (fixed_kernel 0 (some (4096, integer_object 25)) 0 true) MIC_MUTE 7 bound_state).2.trace = 1 := by
  decide

end LenovoSuperHotkey
